import Mathlib

/-!
Verification of the order lifecycle engine of the void-products-api
repository (Go).  The Go sources are embedded shallowly: the `order`
domain entity (`internal/domain/order`), its validation rules and state
machine, the lifecycle service operations, the pagination normalization
of `GetAll`, the Mongo metrics aggregation (modelled as a pure pipeline
over a list of orders), and the PATCH HTTP handler's request-body flow.

Modelling conventions:
- Go `string`-backed enums (`OrderStatus`, `SaleType`) stay `String`,
  since the Go code can hold unrecognized values in them.
- Go `int64` / `int` become `Int`; no claim exercises overflow.
- `time.Time` instants become `Nat`; every mutator that stamps
  `time.Now()` takes an explicit `now : Nat` argument.
- Random generation (`uuid.New`, `generateOrderCode`) is abstracted by
  passing the generated id / code as explicit arguments.
- The repository is abstracted: `FindByCode` becomes a lookup function
  `String → Option Order`, and a successful `repo.Update`/`repo.Create`
  is modelled by returning the written order in the `.ok` branch, so an
  `.error` result means no write happened.
-/

/-- Go `type OrderStatus string`. -/
abbrev OrderStatus := String

/-- `StatusCreated OrderStatus = "CREATED"`. -/
def StatusCreated : OrderStatus := "CREATED"

/-- `StatusVerified OrderStatus = "VERIFIED"`. -/
def StatusVerified : OrderStatus := "VERIFIED"

/-- `StatusInProgress OrderStatus = "IN_PROGRESS"`. -/
def StatusInProgress : OrderStatus := "IN_PROGRESS"

/-- `StatusOutForDelivery OrderStatus = "OUT_FOR_DELIVERY"`. -/
def StatusOutForDelivery : OrderStatus := "OUT_FOR_DELIVERY"

/-- `StatusDelivered OrderStatus = "DELIVERED"`. -/
def StatusDelivered : OrderStatus := "DELIVERED"

/-- `StatusCancelled OrderStatus = "CANCELLED"`. -/
def StatusCancelled : OrderStatus := "CANCELLED"

/-- Go `type SaleType string`. -/
abbrev SaleType := String

/-- `SaleTypeDelivery SaleType = "DELIVERY"`. -/
def SaleTypeDelivery : SaleType := "DELIVERY"

/-- `SaleTypeOnSite SaleType = "ON_SITE"`. -/
def SaleTypeOnSite : SaleType := "ON_SITE"

/-- `Customer` struct of `internal/domain/order` (`IDType` is a string enum). -/
structure Customer where
  identification : String
  idType : String
  name : String
  phone : String
deriving Repr, DecidableEq

/-- `OrderProduct` struct: one line item of an order. -/
structure OrderProduct where
  id : String
  name : String
  description : Option String := none
  observation : Option String := none
  price : Int
  quantity : Int
deriving Repr, DecidableEq

/-- `Order` struct of `internal/domain/order`. -/
structure Order where
  id : String
  code : String
  status : OrderStatus
  saleType : SaleType
  products : List OrderProduct
  total : Int
  note : Option String := none
  customer : Option Customer := none
  shippingAddress : Option String := none
  tableNumber : Option Int := none
  paymentReceiptURL : Option String := none
  paymentAccountID : Option String := none
  createdAt : Nat := 0
  updatedAt : Nat := 0
deriving Repr, DecidableEq

/-- The named error values of `internal/domain/order/errors.go` that the
embedded operations can signal. -/
inductive OrderError where
  | orderNotFound
  | invalidOrderCode
  | noProducts
  | invalidProductID
  | invalidProductName
  | invalidProductQuantity
  | invalidProductPrice
  | duplicateProduct
  | productsNotAllowedInPatch
  | customerRequiredForDelivery
  | customerNameRequired
  | customerPhoneRequired
  | shippingAddressRequired
  | shippingAddressNotAllowedForOnSite
  | tableNumberRequiredForOnSite
  | tableNumberNotAllowedForDelivery
  | invalidTableNumber
  | invalidSaleType
  | invalidStatus
  | invalidStatusTransition
  | orderCannotBeModified
deriving Repr, DecidableEq

/-- `CalculateTotal`'s fold over the products:
`total := 0; for _, p := range products { total += p.Price * int64(p.Quantity) }`. -/
def totalOf (products : List OrderProduct) : Int :=
  products.foldl (fun t p => t + p.price * p.quantity) 0

/-- `(o *Order) CalculateTotal()`: stores the recomputed total on the order. -/
def Order.calculateTotal (o : Order) : Order :=
  { o with total := totalOf o.products }

/-- `NewOrder(saleType, products)`: fresh order with status CREATED and the
total computed from the products.  The generated uuid and order code are
passed in as `id` and `code`; `time.Now()` as `now`. -/
def newOrder (saleType : SaleType) (products : List OrderProduct)
    (id code : String) (now : Nat) : Order :=
  Order.calculateTotal
    { id := id, code := code, status := StatusCreated, saleType := saleType,
      products := products, total := 0, createdAt := now, updatedAt := now }

/-- The per-item field checks of `Validate`'s product loop, in source order:
empty id, empty name, quantity ≤ 0, price < 0. -/
def checkProduct (p : OrderProduct) : Option OrderError :=
  if p.id = "" then some .invalidProductID
  else if p.name = "" then some .invalidProductName
  else if p.quantity ≤ 0 then some .invalidProductQuantity
  else if p.price < 0 then some .invalidProductPrice
  else none

/-- `Validate`'s product loop: for each index i, the field checks of
product i, then the duplicate scan of product i's id against the
products at indices j > i, before moving to product i+1. -/
def validateProducts : List OrderProduct → Option OrderError
  | [] => none
  | p :: rest =>
    match checkProduct p with
    | some e => some e
    | none =>
      if rest.any (fun q => q.id = p.id) then some .duplicateProduct
      else validateProducts rest

/-- `IsValidStatus`: membership in the list of the six recognized values. -/
def isValidStatus (status : OrderStatus) : Bool :=
  [StatusCreated, StatusVerified, StatusInProgress,
   StatusOutForDelivery, StatusDelivered, StatusCancelled].contains status

/-- `Validate`'s trailing status check (`if !o.IsValidStatus(o.Status)`). -/
def statusCheck (o : Order) : Option OrderError :=
  if isValidStatus o.status then none else some .invalidStatus

/-- `(o *Order) Validate()`: products non-empty, the per-item loop, the
sale-type switch, then the status check, short-circuiting on the first
failure.  `none` is Go's `nil` return. -/
def Order.validate (o : Order) : Option OrderError :=
  if o.products.isEmpty then some .noProducts
  else
    match validateProducts o.products with
    | some e => some e
    | none =>
      if o.saleType = SaleTypeDelivery then
        match o.customer with
        | none => some .customerRequiredForDelivery
        | some c =>
          if c.name = "" then some .customerNameRequired
          else if c.phone = "" then some .customerPhoneRequired
          else if o.shippingAddress = none ∨ o.shippingAddress = some "" then
            some .shippingAddressRequired
          else if o.tableNumber ≠ none then some .tableNumberNotAllowedForDelivery
          else statusCheck o
      else if o.saleType = SaleTypeOnSite then
        match o.tableNumber with
        | none => some .tableNumberRequiredForOnSite
        | some t =>
          if t ≤ 0 then some .invalidTableNumber
          else if o.shippingAddress ≠ none then some .shippingAddressNotAllowedForOnSite
          else statusCheck o
      else some .invalidSaleType

/-- The `validTransitions` map of `CanTransitionTo`, as an association
list (its keys are distinct, so lookup agrees with the Go map). -/
def validTransitions : List (OrderStatus × List OrderStatus) :=
  [(StatusCreated, [StatusVerified, StatusInProgress, StatusCancelled]),
   (StatusVerified, [StatusInProgress, StatusCancelled]),
   (StatusInProgress, [StatusOutForDelivery, StatusDelivered, StatusCancelled]),
   (StatusOutForDelivery, [StatusDelivered, StatusCancelled]),
   (StatusDelivered, []),
   (StatusCancelled, [])]

/-- `(o *Order) CanTransitionTo(newStatus)`: look the current status up in
the table (`false` when absent) and scan the allowed list. -/
def Order.canTransitionTo (o : Order) (newStatus : OrderStatus) : Bool :=
  match validTransitions.lookup o.status with
  | none => false
  | some allowed => allowed.contains newStatus

/-- `(o *Order) CanBeModified()`: false iff the status is one of the three
immutable statuses. -/
def Order.canBeModified (o : Order) : Bool :=
  !([StatusOutForDelivery, StatusDelivered, StatusCancelled].contains o.status)

/-- `(o *Order) UpdateStatus(newStatus)`: invalid-status check, then the
transition check, then the write of status and updatedAt. -/
def Order.updateStatus (o : Order) (newStatus : OrderStatus) (now : Nat) :
    Except OrderError Order :=
  if !isValidStatus newStatus then .error .invalidStatus
  else if !o.canTransitionTo newStatus then .error .invalidStatusTransition
  else .ok { o with status := newStatus, updatedAt := now }

/-- `(o *Order) UpdateProducts(products)`: modifiability check, non-empty
check, then wholesale replacement, recomputed total, forced VERIFIED
status and a fresh updatedAt. -/
def Order.updateProducts (o : Order) (products : List OrderProduct) (now : Nat) :
    Except OrderError Order :=
  if !o.canBeModified then .error .orderCannotBeModified
  else if products.isEmpty then .error .noProducts
  else .ok { (Order.calculateTotal { o with products := products }) with
             status := StatusVerified, updatedAt := now }

/-- `PartialUpdateInput` of the order service (PATCH): `nil` pointers are
`none`. -/
structure PartialUpdateInput where
  status : Option OrderStatus := none
  note : Option String := none
  paymentReceiptURL : Option String := none
  paymentAccountID : Option String := none
deriving Repr, DecidableEq

/-- `ModifyInput` of the order service (PUT).  A Go `nil` slice is `[]`. -/
structure ModifyInput where
  products : List OrderProduct := []
  shippingAddress : Option String := none
  customer : Option Customer := none
  note : Option String := none
deriving Repr, DecidableEq

/-- `OrderFilters`.  `Limit`/`Offset` are Go `int`; the date bounds are
RFC3339 strings in Go, modelled here as already-parsed instants (an
unparsable bound is skipped by the source, i.e. behaves like `none`). -/
structure OrderFilters where
  dateFrom : Option Nat := none
  dateTo : Option Nat := none
  status : Option OrderStatus := none
  saleType : Option SaleType := none
  productID : Option String := none
  productName : Option String := none
  minTotal : Option Int := none
  maxTotal : Option Int := none
  limit : Int := 0
  offset : Int := 0
deriving Repr, DecidableEq

/-- `Service.PartialUpdate(ctx, code, input)` after abstracting the
repository: `find` is `repo.FindByCode` (Go's not-found error is `none`),
and the `.ok` result is the order handed to `repo.Update` — an `.error`
result means `repo.Update` is never called, so nothing is persisted. -/
def servicePartialUpdate (find : String → Option Order) (code : String)
    (input : PartialUpdateInput) (now : Nat) : Except OrderError Order :=
  if code = "" then .error .invalidOrderCode
  else
    match find code with
    | none => .error .orderNotFound
    | some o =>
      match (match input.status with
             | some s => o.updateStatus s now
             | none => .ok o) with
      | .error e => .error e
      | .ok o1 =>
        let o2 := match input.note with
                  | some n => { o1 with note := some n }
                  | none => o1
        let o3 := match input.paymentReceiptURL with
                  | some u => { o2 with paymentReceiptURL := some u }
                  | none => o2
        let o4 := match input.paymentAccountID with
                  | some a => { o3 with paymentAccountID := some a }
                  | none => o3
        .ok o4

/-- The tail of `Modify`'s body that overwrites shipping address,
customer and note when the input supplies them (`if input.X != nil`). -/
def applyModifyOverwrites (o1 : Order) (input : ModifyInput) : Order :=
  let o2 := match input.shippingAddress with
            | some a => { o1 with shippingAddress := some a }
            | none => o1
  let o3 := match input.customer with
            | some c => { o2 with customer := some c }
            | none => o2
  match input.note with
  | some n => { o3 with note := some n }
  | none => o3

/-- `Service.Modify(ctx, code, input)` after abstracting the repository the
same way as `servicePartialUpdate`: the `.ok` result is the validated
order handed to `repo.Update`. -/
def serviceModify (find : String → Option Order) (code : String)
    (input : ModifyInput) (now : Nat) : Except OrderError Order :=
  if code = "" then .error .invalidOrderCode
  else
    match find code with
    | none => .error .orderNotFound
    | some o =>
      if !o.canBeModified then .error .orderCannotBeModified
      else
        match (if input.products.length > 0
               then o.updateProducts input.products now
               else .ok o) with
        | .error e => .error e
        | .ok o1 =>
          match (applyModifyOverwrites o1 input).validate with
          | some e => .error e
          | none => .ok (applyModifyOverwrites o1 input)

/-- The pagination normalization `Service.GetAll` performs on its filters
before delegating `repo.Count` and `repo.FindAll`: default limit 50,
hard cap 100, negative offset clamped to 0.  The function returns the
filters exactly as the two repository calls receive them. -/
def serviceGetAllFilters (filters : OrderFilters) : OrderFilters :=
  let f1 := if filters.limit ≤ 0 then { filters with limit := 50 } else filters
  let f2 := if f1.limit > 100 then { f1 with limit := 100 } else f1
  if f2.offset < 0 then { f2 with offset := 0 } else f2

/-- `ProductSalesSummary`: one entry of the top-products ranking. -/
structure ProductSalesSummary where
  productID : String
  name : String
  totalQuantity : Int
  totalRevenue : Int
deriving Repr, DecidableEq

/-- `OrderMetrics`.  The Go field `OrdersByStatus` is a `map[OrderStatus]int`
built by inserting one entry per group the `by_status` facet returned; it
is modelled as an association list with distinct keys (insertion order is
irrelevant to map semantics). -/
structure OrderMetrics where
  totalSales : Int := 0
  avgTicket : Int := 0
  ordersByStatus : List (OrderStatus × Nat) := []
  topProducts : List ProductSalesSummary := []
deriving Repr, DecidableEq

/-- The `$match` predicate `applyFilters` builds: equality on status and
sale type, any line item with the given product id, any line item whose
name contains the given name case-insensitively (`$regex` with option i,
modelled for plain patterns as substring), inclusive total and
creation-date bounds. -/
def matchesFilters (f : OrderFilters) (o : Order) : Bool :=
  (match f.status with | some s => o.status = s | none => true) &&
  (match f.saleType with | some s => o.saleType = s | none => true) &&
  (match f.productID with
   | some pid => o.products.any (fun p => p.id = pid)
   | none => true) &&
  (match f.productName with
   | some pn => o.products.any (fun p => decide (pn.toLower.data <:+: p.name.toLower.data))
   | none => true) &&
  (match f.minTotal with | some m => m ≤ o.total | none => true) &&
  (match f.maxTotal with | some m => o.total ≤ m | none => true) &&
  (match f.dateFrom with | some d => d ≤ o.createdAt | none => true) &&
  (match f.dateTo with | some d => o.createdAt ≤ d | none => true)

/-- The `by_status` facet of the `GetMetrics` pipeline followed by the
decoding loop `for _, sc := range result.ByStatus { m[sc.Status] = sc.Count }`:
one entry per status value occurring among the matched orders, carrying
how many matched orders have it.  A status with no matched order gets no
entry. -/
def byStatusFacet (matched : List Order) : List (OrderStatus × Nat) :=
  ((matched.map (fun o => o.status)).dedup).map
    (fun s => (s, (matched.filter (fun o => o.status = s)).length))

/-- The `top_products` facet: `$unwind` the line items, group by
(id, name) summing quantity and price×quantity, sort by total quantity
descending, keep the first 10. -/
def topProductsFacet (matched : List Order) : List ProductSalesSummary :=
  let items := (matched.map (fun o => o.products)).flatten
  let keys := (items.map (fun p => (p.id, p.name))).dedup
  let summaries := keys.map (fun k =>
    let sel := items.filter (fun p => p.id = k.1 ∧ p.name = k.2)
    { productID := k.1, name := k.2,
      totalQuantity := (sel.map (fun p => p.quantity)).sum,
      totalRevenue := (sel.map (fun p => p.price * p.quantity)).sum })
  (summaries.mergeSort (fun a b => decide (b.totalQuantity ≤ a.totalQuantity))).take 10

/-- `GetMetrics` of the Mongo order repository, as the aggregation
pipeline's semantics over the stored orders: `$match` with
`applyFilters`, then the three `$facet` branches, then the decoding into
`OrderMetrics`.  `$facet` always yields exactly one result document; its
`metrics` branch groups all matched orders into one document, so when no
order matches that branch is empty and `TotalSales`/`AvgTicket` keep Go's
zero values.  `$avg` (a BSON double, decoded into the `int64` field) is
modelled as integer division; the theorems below evaluate it only where
it is exact or zero. -/
def repoGetMetrics (coll : List Order) (f : OrderFilters) : OrderMetrics :=
  let matched := coll.filter (matchesFilters f)
  { totalSales := if matched.isEmpty then 0 else (matched.map (fun o => o.total)).sum,
    avgTicket := if matched.isEmpty then 0
                 else (matched.map (fun o => o.total)).sum / (matched.length : Int),
    ordersByStatus := byStatusFacet matched,
    topProducts := topProductsFacet matched }

/-- The fields of the PATCH JSON body (`dto.PartialUpdateOrderRequest`),
together with whether the raw JSON object carries a `products` key (which
the named struct would silently drop). -/
structure PatchBody where
  code : String
  status : Option OrderStatus := none
  note : Option String := none
  paymentReceiptURL : Option String := none
  paymentAccountID : Option String := none
  hasProductsKey : Bool := false
deriving Repr, DecidableEq

/-- The HTTP request body as gin hands it to the handler: its (parsed)
JSON content plus whether the underlying reader has already been
drained. -/
structure BodyStream where
  content : PatchBody
  consumed : Bool
deriving Repr, DecidableEq

/-- `gin.Context.ShouldBindJSON`: decodes the JSON value from the request
body reader, draining it.  A second call on the same request finds the
reader at EOF and returns a non-nil error (the body is not re-readable).
The binding-tag validation of a fresh body is abstracted away: the
handler flow modelled here only depends on parse success. -/
def shouldBindJSON (b : BodyStream) : Except Unit (PatchBody × BodyStream) :=
  if b.consumed then .error ()
  else .ok (b.content, { b with consumed := true })

/-- `(r *PartialUpdateOrderRequest) ToPartialUpdateInput()`. -/
def toPartialUpdateInput (r : PatchBody) : PartialUpdateInput :=
  { status := r.status, note := r.note,
    paymentReceiptURL := r.paymentReceiptURL,
    paymentAccountID := r.paymentAccountID }

deriving instance DecidableEq for Except

/-- What `OrderHandler.PartialUpdate` does with a request: reject the body,
reject because of a `products` key, or invoke the lifecycle service with
the converted input. -/
inductive PatchHandlerResult where
  | badRequestBody
  | productsNotAllowed
  | serviceCalled (code : String) (input : PartialUpdateInput)
      (outcome : Except OrderError Order)
deriving Repr, DecidableEq

/-- `OrderHandler.PartialUpdate` (PATCH /api/v1/orders): first
`ShouldBindJSON` into the request struct, then a second `ShouldBindJSON`
into a raw map guarded by `err == nil` to look for a `products` key, then
the service call. -/
def patchHandler (find : String → Option Order) (now : Nat)
    (body : BodyStream) : PatchHandlerResult :=
  match shouldBindJSON body with
  | .error _ => .badRequestBody
  | .ok (req, rest) =>
    match shouldBindJSON rest with
    | .ok (raw, _) =>
      if raw.hasProductsKey then .productsNotAllowed
      else .serviceCalled req.code (toPartialUpdateInput req)
        (servicePartialUpdate find req.code (toPartialUpdateInput req) now)
    | .error _ =>
      .serviceCalled req.code (toPartialUpdateInput req)
        (servicePartialUpdate find req.code (toPartialUpdateInput req) now)

/-- `CreateInput` of the order service. -/
structure CreateInput where
  saleType : SaleType
  products : List OrderProduct := []
  note : Option String := none
  customer : Option Customer := none
  shippingAddress : Option String := none
  tableNumber : Option Int := none
  paymentReceiptURL : Option String := none
  paymentAccountID : Option String := none
deriving Repr, DecidableEq

/-- `Service.Create(ctx, input)`: build the order, copy the optional
fields, validate, regenerate the code once on an `ExistsByCode` hit, then
insert.  `existsByCode` abstracts the repository probe, `id`/`code` the
generated identifiers, `regen` the once-regenerated code; the `.ok`
result is the order handed to `repo.Create`. -/
def serviceCreate (existsByCode : String → Bool) (input : CreateInput)
    (id code regen : String) (now : Nat) : Except OrderError Order :=
  let o := newOrder input.saleType input.products id code now
  let o1 := { o with note := input.note, customer := input.customer,
                     shippingAddress := input.shippingAddress,
                     tableNumber := input.tableNumber,
                     paymentReceiptURL := input.paymentReceiptURL,
                     paymentAccountID := input.paymentAccountID }
  match o1.validate with
  | some e => .error e
  | none =>
    if existsByCode o1.code then .ok { o1 with code := regen }
    else .ok o1

/-- The sale-type-conditional rules exactly as the spec lists them (used
to compare `Validate` against the spec's wording): DELIVERY needs a
customer with non-empty name and phone, a non-empty shipping address,
and no table number; ON_SITE needs a positive table number and no
shipping address; any other sale type satisfies no rule set. -/
def saleRulesCheck (o : Order) : Bool :=
  if o.saleType = SaleTypeDelivery then
    (match o.customer with
     | some c => decide (c.name ≠ "") && decide (c.phone ≠ "")
     | none => false)
    && (match o.shippingAddress with
        | some a => decide (a ≠ "")
        | none => false)
    && decide (o.tableNumber = none)
  else if o.saleType = SaleTypeOnSite then
    (match o.tableNumber with
     | some t => decide (0 < t)
     | none => false)
    && decide (o.shippingAddress = none)
  else false

/-- Sample line item: 10000 cents, quantity 2. -/
def itemBurger : OrderProduct :=
  { id := "p1", name := "Burger", price := 10000, quantity := 2 }

/-- Sample line item: 19900 cents, quantity 1. -/
def itemCombo : OrderProduct :=
  { id := "p2", name := "Combo", price := 19900, quantity := 1 }

/-- A concrete on-site order in status CREATED. -/
def sampleOnSite : Order :=
  { id := "oid-1", code := "ORD-1", status := StatusCreated,
    saleType := SaleTypeOnSite, products := [itemBurger], total := 20000,
    tableNumber := some 3 }

/-- The same order after delivery (terminal status DELIVERED). -/
def sampleDelivered : Order :=
  { sampleOnSite with status := StatusDelivered }

/-- A delivery order satisfying every sale-type rule but carrying the
unrecognized status string PAID. -/
def c4Order : Order :=
  { id := "oid-4", code := "ORD-4", status := "PAID",
    saleType := SaleTypeDelivery, products := [itemBurger], total := 20000,
    customer := some { identification := "123", idType := "CC",
                       name := "Ana", phone := "5551234" },
    shippingAddress := some "Main St 1" }

/-- A valid delivery creation input with the two line items of the
spec's total scenario. -/
def c5Input : CreateInput :=
  { saleType := SaleTypeDelivery, products := [itemBurger, itemCombo],
    customer := some { identification := "123", idType := "CC",
                       name := "Ana", phone := "5551234" },
    shippingAddress := some "Main St 1" }

/-- The order the C2 witness expects `Modify` to hand to the repository. -/
def c2Expected : Order :=
  { sampleOnSite with
    products := [itemCombo], total := 19900,
    status := StatusVerified, updatedAt := 9 }

/-- First occurrence of the duplicated id "a"; passes every field check. -/
def c8ItemA : OrderProduct := { id := "a", name := "Apple", price := 100, quantity := 1 }

/-- Fails the name field check, sits between the two duplicates. -/
def c8ItemBad : OrderProduct := { id := "b", name := "", price := 100, quantity := 1 }

/-- Second occurrence of the duplicated id "a". -/
def c8ItemA2 : OrderProduct := { id := "a", name := "Apfel", price := 50, quantity := 2 }

/-- An order holding both a field-check failure (second item) and a
duplicate pair (first and third items). -/
def c8Order : Order :=
  { id := "oid-8", code := "ORD-8", status := StatusCreated,
    saleType := SaleTypeOnSite, products := [c8ItemA, c8ItemBad, c8ItemA2],
    total := 0, tableNumber := some 1 }

/-- A clean line item whose id collides with nothing. -/
def c8ItemC : OrderProduct := { id := "c", name := "Carrot", price := 10, quantity := 3 }

/-- An order whose field-check failure (second item) precedes the first
member of its duplicate pair (third and fourth items). -/
def c8WOrder : Order :=
  { id := "oid-8w", code := "ORD-8W", status := StatusCreated,
    saleType := SaleTypeOnSite,
    products := [c8ItemC, c8ItemBad, c8ItemA, c8ItemA2],
    total := 0, tableNumber := some 1 }

/-- The transition table of the claim, flattened to its ten
(current, target) pairs; DELIVERED and CANCELLED contribute none. -/
def allowedTransitionPairs : List (OrderStatus × OrderStatus) :=
  [(StatusCreated, StatusVerified), (StatusCreated, StatusInProgress),
   (StatusCreated, StatusCancelled),
   (StatusVerified, StatusInProgress), (StatusVerified, StatusCancelled),
   (StatusInProgress, StatusOutForDelivery), (StatusInProgress, StatusDelivered),
   (StatusInProgress, StatusCancelled),
   (StatusOutForDelivery, StatusDelivered), (StatusOutForDelivery, StatusCancelled)]

theorem canTransitionTo_iff (o : Order) (t : OrderStatus) :
    o.canTransitionTo t = true ↔ (o.status, t) ∈ allowedTransitionPairs := by
  unfold Order.canTransitionTo validTransitions
  by_cases h1 : o.status = StatusCreated
  · simp [h1, allowedTransitionPairs, StatusCreated, StatusVerified, StatusInProgress,
      StatusOutForDelivery, StatusDelivered, StatusCancelled]
  · by_cases h2 : o.status = StatusVerified
    · simp [h2, List.lookup, allowedTransitionPairs, StatusCreated, StatusVerified, StatusInProgress,
        StatusOutForDelivery, StatusDelivered, StatusCancelled]
    · by_cases h3 : o.status = StatusInProgress
      · simp [h3, List.lookup, allowedTransitionPairs, StatusCreated, StatusVerified, StatusInProgress,
          StatusOutForDelivery, StatusDelivered, StatusCancelled]
      · by_cases h4 : o.status = StatusOutForDelivery
        · simp [h4, List.lookup, allowedTransitionPairs, StatusCreated, StatusVerified, StatusInProgress,
            StatusOutForDelivery, StatusDelivered, StatusCancelled]
        · by_cases h5 : o.status = StatusDelivered
          · simp [h5, List.lookup, allowedTransitionPairs, StatusCreated, StatusVerified, StatusInProgress,
              StatusOutForDelivery, StatusDelivered, StatusCancelled]
          · by_cases h6 : o.status = StatusCancelled
            · simp [h6, List.lookup, allowedTransitionPairs, StatusCreated, StatusVerified, StatusInProgress,
                StatusOutForDelivery, StatusDelivered, StatusCancelled]
            · have e1 : ¬ o.status = "CREATED" := h1
              have e2 : ¬ o.status = "VERIFIED" := h2
              have e3 : ¬ o.status = "IN_PROGRESS" := h3
              have e4 : ¬ o.status = "OUT_FOR_DELIVERY" := h4
              have e5 : ¬ o.status = "DELIVERED" := h5
              have e6 : ¬ o.status = "CANCELLED" := h6
              have b1 : (o.status == "CREATED") = false := beq_eq_false_iff_ne.mpr e1
              have b2 : (o.status == "VERIFIED") = false := beq_eq_false_iff_ne.mpr e2
              have b3 : (o.status == "IN_PROGRESS") = false := beq_eq_false_iff_ne.mpr e3
              have b4 : (o.status == "OUT_FOR_DELIVERY") = false := beq_eq_false_iff_ne.mpr e4
              have b5 : (o.status == "DELIVERED") = false := beq_eq_false_iff_ne.mpr e5
              have b6 : (o.status == "CANCELLED") = false := beq_eq_false_iff_ne.mpr e6
              simp [List.lookup, allowedTransitionPairs, StatusCreated, StatusVerified,
                StatusInProgress, StatusOutForDelivery, StatusDelivered, StatusCancelled,
                b1, b2, b3, b4, b5, b6, e1, e2, e3, e4, e5, e6]

/-- C1: `CanTransitionTo` returns true exactly when the (current, target)
pair appears in the transition table, and false for every other pair
(self-transitions and terminal statuses included); `UpdateStatus` fails
with the invalid-status error on an unrecognized target, with the
invalid-transition error on a pair outside the table, and otherwise
writes the new status. -/
theorem c1_transition_table :
    (∀ (o : Order) (t : OrderStatus),
        o.canTransitionTo t = true ↔ (o.status, t) ∈ allowedTransitionPairs)
    ∧ (∀ (o : Order) (t : OrderStatus) (now : Nat),
        (isValidStatus t = false → o.updateStatus t now = .error .invalidStatus)
        ∧ (isValidStatus t = true → o.canTransitionTo t = false →
            o.updateStatus t now = .error .invalidStatusTransition)
        ∧ (isValidStatus t = true → o.canTransitionTo t = true →
            o.updateStatus t now = .ok { o with status := t, updatedAt := now })) := by
  refine ⟨canTransitionTo_iff, fun o t now => ⟨?_, ?_, ?_⟩⟩
  · intro h; simp [Order.updateStatus, h]
  · intro h1 h2; simp [Order.updateStatus, h1, h2]
  · intro h1 h2; simp [Order.updateStatus, h1, h2]

/-- Witness for C1 at a concrete order: an allowed transition, an
unrecognized target, and a successful status write. -/
theorem c1_transition_table_witness :
    sampleOnSite.canTransitionTo StatusVerified = true
    ∧ sampleOnSite.updateStatus "PENDING" 7 = .error .invalidStatus
    ∧ sampleOnSite.updateStatus StatusVerified 7 =
        .ok { sampleOnSite with status := StatusVerified, updatedAt := 7 } := by
  refine ⟨?_, ?_, ?_⟩
  · exact (c1_transition_table.1 sampleOnSite StatusVerified).mpr (by decide)
  · exact (c1_transition_table.2 sampleOnSite "PENDING" 7).1 (by decide)
  · exact (c1_transition_table.2 sampleOnSite StatusVerified 7).2.2 (by decide) (by decide)

theorem canBeModified_false_iff (o : Order) :
    o.canBeModified = false ↔
      (o.status = StatusOutForDelivery ∨ o.status = StatusDelivered
        ∨ o.status = StatusCancelled) := by
  constructor
  · intro h
    by_contra hn
    push_neg at hn
    obtain ⟨n1, n2, n3⟩ := hn
    have e1 : ¬ o.status = "OUT_FOR_DELIVERY" := n1
    have e2 : ¬ o.status = "DELIVERED" := n2
    have e3 : ¬ o.status = "CANCELLED" := n3
    simp [Order.canBeModified, StatusOutForDelivery, StatusDelivered, StatusCancelled,
      beq_eq_false_iff_ne.mpr e1, beq_eq_false_iff_ne.mpr e2,
      beq_eq_false_iff_ne.mpr e3] at h
    exact e3 (h e1 e2)
  · intro h
    rcases h with h | h | h <;>
      simp [Order.canBeModified, h, StatusOutForDelivery, StatusDelivered, StatusCancelled]

/-- C3: `CanBeModified` is false exactly on the three immutable statuses,
and `Modify` on an order in one of them fails with the
cannot-be-modified error for any input (no write reaches the
repository). -/
theorem c3_cannot_be_modified :
    (∀ o : Order, o.canBeModified = false ↔
       (o.status = StatusOutForDelivery ∨ o.status = StatusDelivered
         ∨ o.status = StatusCancelled))
    ∧ (∀ (find : String → Option Order) (code : String) (input : ModifyInput)
         (now : Nat) (o : Order),
        code ≠ "" → find code = some o →
        (o.status = StatusOutForDelivery ∨ o.status = StatusDelivered
          ∨ o.status = StatusCancelled) →
        serviceModify find code input now = .error .orderCannotBeModified) := by
  refine ⟨canBeModified_false_iff, fun find code input now o hc hf hs => ?_⟩
  have hm : o.canBeModified = false := (canBeModified_false_iff o).mpr hs
  simp [serviceModify, hc, hf, hm]

/-- Witness for C3: modifying a DELIVERED order fails. -/
theorem c3_cannot_be_modified_witness :
    sampleDelivered.canBeModified = false
    ∧ serviceModify (fun c => if c = "ORD-1" then some sampleDelivered else none)
        "ORD-1" { products := [itemCombo] } 9 = .error .orderCannotBeModified := by
  refine ⟨?_, ?_⟩
  · exact (c3_cannot_be_modified.1 sampleDelivered).mpr (by decide)
  · exact c3_cannot_be_modified.2 (fun c => if c = "ORD-1" then some sampleDelivered else none)
      "ORD-1" { products := [itemCombo] } 9 sampleDelivered (by decide) (by decide)
      (by decide)

/-- C9: before delegating to the repository, `GetAll` normalizes the
pagination filters: a limit ≤ 0 becomes 50, a limit over 100 becomes
100, a negative offset becomes 0, and in-range values pass through. -/
theorem c9_pagination_bounds (f : OrderFilters) :
    (f.limit ≤ 0 → (serviceGetAllFilters f).limit = 50)
    ∧ (f.limit > 100 → (serviceGetAllFilters f).limit = 100)
    ∧ (1 ≤ f.limit → f.limit ≤ 100 → (serviceGetAllFilters f).limit = f.limit)
    ∧ (f.offset < 0 → (serviceGetAllFilters f).offset = 0)
    ∧ (0 ≤ f.offset → (serviceGetAllFilters f).offset = f.offset) := by
  refine ⟨?_, ?_, ?_, ?_, ?_⟩ <;> intro h
  · simp only [serviceGetAllFilters]
    split_ifs <;> simp_all
  · simp only [serviceGetAllFilters]
    split_ifs <;> simp_all <;> omega
  · intro h2
    simp only [serviceGetAllFilters]
    split_ifs <;> simp_all <;> omega
  · simp only [serviceGetAllFilters]
    split_ifs <;> simp_all
  · simp only [serviceGetAllFilters]
    split_ifs <;> simp_all <;> omega

/-- Witness for C9: out-of-range pagination values are clamped. -/
theorem c9_pagination_bounds_witness :
    (serviceGetAllFilters { limit := -5, offset := -3 }).limit = 50
    ∧ (serviceGetAllFilters { limit := 250, offset := 4 }).offset = 4 := by
  exact ⟨(c9_pagination_bounds { limit := -5, offset := -3 }).1 (by decide),
         (c9_pagination_bounds { limit := 250, offset := 4 }).2.2.2.2 (by decide)⟩

/-- C10: when the PATCH input carries a status whose transition (or
value) is rejected by `UpdateStatus`, `PartialUpdate` returns that error
and never reaches the note/payment patches or the repository write. -/
theorem c10_patch_status_error_first (find : String → Option Order)
    (code : String) (input : PartialUpdateInput) (now : Nat)
    (o : Order) (s : OrderStatus) (e : OrderError)
    (hc : code ≠ "") (hf : find code = some o) (hs : input.status = some s)
    (he : o.updateStatus s now = .error e) :
    servicePartialUpdate find code input now = .error e := by
  simp [servicePartialUpdate, hc, hf, hs, he]

/-- Witness for C10: patching a DELIVERED order to IN_PROGRESS (with a
note that would otherwise be applied) fails with the invalid-transition
error. -/
theorem c10_patch_status_error_first_witness :
    servicePartialUpdate (fun c => if c = "ORD-1" then some sampleDelivered else none)
      "ORD-1" { status := some StatusInProgress, note := some "rush" } 9 =
      .error .invalidStatusTransition := by
  exact c10_patch_status_error_first
    (fun c => if c = "ORD-1" then some sampleDelivered else none) "ORD-1"
    { status := some StatusInProgress, note := some "rush" } 9
    sampleDelivered StatusInProgress .invalidStatusTransition
    (by decide) (by decide) (by decide) (by decide)

/-- C6 (code bug demonstration): the handler's products check sits behind
a second `ShouldBindJSON`, whose error is required to be nil for the
check to run; the body reader is already drained by the first bind, so
the rejection branch is unreachable and a fresh PATCH request — products
key present or not — always reaches the lifecycle service. -/
theorem c6_patch_products_check_unreachable :
    (∀ (find : String → Option Order) (now : Nat) (body : BodyStream),
        patchHandler find now body ≠ .productsNotAllowed)
    ∧ (∀ (find : String → Option Order) (now : Nat) (content : PatchBody),
        patchHandler find now { content := content, consumed := false } =
          .serviceCalled content.code (toPartialUpdateInput content)
            (servicePartialUpdate find content.code (toPartialUpdateInput content) now)) := by
  constructor
  · intro find now body
    cases hb : body.consumed <;> simp [patchHandler, shouldBindJSON, hb]
  · intro find now content
    simp [patchHandler, shouldBindJSON]

theorem applyModifyOverwrites_fields (o1 : Order) (input : ModifyInput) :
    (applyModifyOverwrites o1 input).products = o1.products
    ∧ (applyModifyOverwrites o1 input).total = o1.total
    ∧ (applyModifyOverwrites o1 input).status = o1.status := by
  unfold applyModifyOverwrites
  rcases input with ⟨ps, sa, cu, nt⟩
  cases sa <;> cases cu <;> cases nt <;> simp

/-- C2: a successful `Modify` of an order in a modifiable status with a
non-empty product list replaces the line items wholesale, recomputes the
total from them, and forces the status to VERIFIED. -/
theorem c2_modify_replaces_and_verifies (find : String → Option Order)
    (code : String) (input : ModifyInput) (now : Nat) (o o2 : Order)
    (hc : code ≠ "") (hf : find code = some o)
    (hs : o.status = StatusCreated ∨ o.status = StatusVerified
      ∨ o.status = StatusInProgress)
    (hp : input.products ≠ [])
    (hok : serviceModify find code input now = .ok o2) :
    o2.products = input.products ∧ o2.total = totalOf input.products
      ∧ o2.status = StatusVerified := by
  have hfields := applyModifyOverwrites_fields
  have hm : o.canBeModified = true := by
    rcases hs with h | h | h <;> simp [Order.canBeModified, h] <;> decide
  obtain ⟨ps, sa, cu, nt⟩ := input
  cases ps with
  | nil => exact absurd rfl hp
  | cons p rest =>
    simp only [serviceModify, hc, hf, hm] at hok
    simp only [Order.updateProducts, hm] at hok
    simp at hok
    split at hok
    · exact absurd hok (by simp)
    · simp only [Except.ok.injEq] at hok
      subst hok
      obtain ⟨e1, e2, e3⟩ := hfields _ ⟨p :: rest, sa, cu, nt⟩
      rw [e1, e2, e3]
      simp [Order.calculateTotal]

/-- Witness for C2: modifying the sample CREATED on-site order with a
fresh product list succeeds and lands in VERIFIED with the recomputed
total. -/
theorem c2_modify_replaces_and_verifies_witness :
    ∃ r : Order,
      serviceModify (fun c => if c = "ORD-1" then some sampleOnSite else none)
        "ORD-1" { products := [itemCombo] } 9 = .ok r
      ∧ r.products = [itemCombo] ∧ r.total = totalOf [itemCombo]
        ∧ r.status = StatusVerified := by
  refine ⟨c2Expected, by decide, ?_⟩
  exact c2_modify_replaces_and_verifies
    (fun c => if c = "ORD-1" then some sampleOnSite else none) "ORD-1"
    { products := [itemCombo] } 9 sampleOnSite c2Expected
    (by decide) (by decide) (by decide) (by decide) (by decide)

/-- C5: the stored total is always the fold Σ price·quantity over the
line items — after `NewOrder` (which also sets status CREATED), after a
successful `UpdateProducts`, and in the two-item creation scenario of
the spec (10000×2 + 19900×1 = 39900, status CREATED). -/
theorem c5_total_recomputed :
    (∀ (st : SaleType) (ps : List OrderProduct) (id code : String) (now : Nat),
        (newOrder st ps id code now).total = totalOf ps
        ∧ (newOrder st ps id code now).status = StatusCreated)
    ∧ (∀ (o : Order) (ps : List OrderProduct) (now : Nat) (o2 : Order),
        o.updateProducts ps now = .ok o2 → o2.total = totalOf ps)
    ∧ (serviceCreate (fun _ => false) c5Input "oid-5" "ORD-5" "ORD-5b" 0).toOption.map
        (fun r => (r.total, r.status)) = some (39900, StatusCreated) := by
  refine ⟨?_, ?_, by decide⟩
  · intro st ps id code now
    exact ⟨rfl, rfl⟩
  · intro o ps now o2 h
    unfold Order.updateProducts at h
    split at h
    · exact absurd h (by simp)
    · split at h
      · exact absurd h (by simp)
      · simp only [Except.ok.injEq] at h
        subst h
        simp [Order.calculateTotal]

/-- Witness for C5's update part: replacing the sample order's products
yields the recomputed total. -/
theorem c5_total_recomputed_witness :
    ∃ r : Order, sampleOnSite.updateProducts [itemCombo] 9 = .ok r
      ∧ r.total = totalOf [itemCombo] :=
  ⟨c2Expected, by decide,
    c5_total_recomputed.2.1 sampleOnSite [itemCombo] 9 c2Expected (by decide)⟩

theorem checkProduct_ne_duplicate (p : OrderProduct) :
    checkProduct p ≠ some .duplicateProduct := by
  unfold checkProduct
  split_ifs <;> simp

theorem validateProducts_field_error (pre post : List OrderProduct)
    (bad : OrderProduct)
    (h1 : ∀ p ∈ pre, checkProduct p = none)
    (h2 : pre.Pairwise (fun a b => a.id ≠ b.id))
    (h3 : ∀ p ∈ pre, ∀ q ∈ bad :: post, p.id ≠ q.id)
    (h4 : checkProduct bad ≠ none) :
    validateProducts (pre ++ bad :: post) = checkProduct bad := by
  induction pre with
  | nil =>
    obtain ⟨e, he⟩ := Option.ne_none_iff_exists'.mp h4
    simp [validateProducts, he]
  | cons p pre ih =>
    have hp : checkProduct p = none := h1 p (by simp)
    have hd : ((pre ++ bad :: post).any (fun q => q.id = p.id)) = false := by
      rw [List.any_eq_false]
      intro q hq
      rcases List.mem_append.mp hq with hq1 | hq2
      · have hne := (List.pairwise_cons.mp h2).1 q hq1
        simp [Ne.symm hne]
      · have hne := h3 p (by simp) q hq2
        simp [Ne.symm hne]
    have htail : validateProducts (pre ++ bad :: post) = checkProduct bad :=
      ih (fun x hx => h1 x (by simp [hx]))
         (List.pairwise_cons.mp h2).2
         (fun x hx => h3 x (by simp [hx]))
    simp [validateProducts, hp, hd, htail]

/-- C8 amended: the product scan interleaves field checks and duplicate
scans item by item; when every item before the field-failing one passes
its field checks and opens no duplicate pair, `Validate` returns that
item's field-check error, never the duplicate error — even when a
duplicate pair starts later in the list. -/
theorem c8_field_error_first (o : Order) (pre post : List OrderProduct)
    (bad : OrderProduct)
    (hprod : o.products = pre ++ bad :: post)
    (h1 : ∀ p ∈ pre, checkProduct p = none)
    (h2 : pre.Pairwise (fun a b => a.id ≠ b.id))
    (h3 : ∀ p ∈ pre, ∀ q ∈ bad :: post, p.id ≠ q.id)
    (h4 : checkProduct bad ≠ none) :
    o.validate = checkProduct bad ∧ o.validate ≠ some .duplicateProduct := by
  have hv := validateProducts_field_error pre post bad h1 h2 h3 h4
  have hne : (pre ++ bad :: post).isEmpty = false := by
    cases pre <;> simp
  obtain ⟨e, he⟩ := Option.ne_none_iff_exists'.mp h4
  have hval : o.validate = checkProduct bad := by
    rw [he]
    simp [Order.validate, hprod, hne, hv, he]
  exact ⟨hval, by rw [hval]; exact checkProduct_ne_duplicate bad⟩

/-- Counterexample to C8 as stated: `c8Order` holds a field-check
failure (item 2) and a duplicate pair (items 1 and 3), yet `Validate`
returns the duplicate error, because item 1's duplicate scan runs
before item 2's field checks. -/
theorem c8_counterexample :
    (∃ p ∈ c8Order.products, checkProduct p ≠ none)
    ∧ (∃ i : Fin c8Order.products.length, ∃ j : Fin c8Order.products.length,
        i < j ∧ (c8Order.products.get i).id = (c8Order.products.get j).id)
    ∧ c8Order.validate = some .duplicateProduct := by
  decide

/-- Witness for the amended C8: with the failing item placed before the
duplicate pair, `Validate` reports the field error. -/
theorem c8_field_error_first_witness :
    c8WOrder.validate = checkProduct c8ItemBad
    ∧ c8WOrder.validate ≠ some .duplicateProduct :=
  c8_field_error_first c8WOrder [c8ItemC] [c8ItemA, c8ItemA2] c8ItemBad
    (by decide) (by decide) (by decide) (by decide) (by decide)

/-- C4 amended: for orders whose line items pass the item checks and
whose status is recognized, `Validate` succeeds exactly when the
sale-type-conditional rules hold, and any other sale type fails with
the invalid-sale-type error. -/
theorem c4_validate_sale_rules (o : Order)
    (hne : o.products ≠ [])
    (hitems : validateProducts o.products = none)
    (hstatus : isValidStatus o.status = true) :
    (o.validate = none ↔ saleRulesCheck o = true)
    ∧ (o.saleType ≠ SaleTypeDelivery → o.saleType ≠ SaleTypeOnSite →
        o.validate = some .invalidSaleType) := by
  have hie : o.products.isEmpty = false := by
    rcases hq : o.products with _ | ⟨a, l⟩
    · exact absurd hq hne
    · rfl
  constructor
  · by_cases hd : o.saleType = SaleTypeDelivery
    · cases hc : o.customer with
      | none => simp [Order.validate, hie, hitems, hd, saleRulesCheck, hc]
      | some c =>
        simp only [Order.validate, hie, hitems, hd, saleRulesCheck, hc,
          statusCheck, hstatus, if_true, if_false, Bool.false_eq_true]
        split_ifs with a1 a2 a3 a4
        · simp [a1]
        · simp [a1, a2]
        · rcases a3 with a3 | a3 <;> simp [a1, a2, a3]
        · push_neg at a3
          cases hsa : o.shippingAddress with
          | none => exact absurd hsa a3.1
          | some addr => simp [hsa, a4, a3.2, hsa ▸ a3.2]
        · push_neg at a3 a4
          cases hsa : o.shippingAddress with
          | none => exact absurd hsa a3.1
          | some addr =>
            have haddr : addr ≠ "" := by
              intro hx
              exact a3.2 (by rw [hsa, hx])
            simp [hsa, a1, a2, a4, haddr]
    · by_cases hn : o.saleType = SaleTypeOnSite
      · cases ht : o.tableNumber with
        | none =>
          simp [Order.validate, hie, hitems, hn, saleRulesCheck, ht,
            SaleTypeDelivery, SaleTypeOnSite]
        | some t =>
          cases hsa : o.shippingAddress with
          | none =>
            simp only [Order.validate, hie, hitems, hn, saleRulesCheck, ht, hsa,
              statusCheck, hstatus, SaleTypeDelivery, SaleTypeOnSite]
            by_cases a1 : t ≤ 0
            · simp [a1, show ¬ (0 : Int) < t by omega]
            · simp [a1, show (0 : Int) < t by omega]
          | some addr =>
            simp only [Order.validate, hie, hitems, hn, saleRulesCheck, ht, hsa,
              statusCheck, hstatus, SaleTypeDelivery, SaleTypeOnSite]
            by_cases a1 : t ≤ 0 <;> simp [a1]
      · simp [Order.validate, hie, hitems, hd, hn, saleRulesCheck]
  · intro hnd hns
    simp [Order.validate, hie, hitems, hnd, hns]

/-- Counterexample to C4 as stated: a delivery order that satisfies
every sale-type rule and passes the item checks, but carries the
unrecognized status PAID — `Validate` still fails (with the
invalid-status error), so success is not equivalent to the sale-type
rules alone. -/
theorem c4_counterexample :
    c4Order.products ≠ [] ∧ validateProducts c4Order.products = none
    ∧ saleRulesCheck c4Order = true ∧ c4Order.validate ≠ none := by
  decide

/-- Witness for the amended C4 on a concrete valid on-site order. -/
theorem c4_validate_sale_rules_witness :
    sampleOnSite.validate = none ↔ saleRulesCheck sampleOnSite = true :=
  (c4_validate_sale_rules sampleOnSite (by decide) (by decide) (by decide)).1

theorem lookup_map_keys (ks : List String) (g : String → Nat) (s : String) :
    ((ks.map (fun k => (k, g k))).lookup s).isSome = true ↔ s ∈ ks := by
  induction ks with
  | nil => simp
  | cons k ks ih =>
    by_cases h : s = k
    · simp [h, List.lookup]
    · have hb : (s == k) = false := beq_eq_false_iff_ne.mpr h
      simp [List.lookup, hb, ih, h]

/-- C7 amended: the by-status counts of `GetMetrics` carry one entry per
status value actually occurring among the matched orders — a status with
no matching order gets no explicit entry (the Go map read then falls
back to the zero value) — and an empty matched set yields zeroed totals,
an empty by-status map and an empty top-products list rather than a
failure. -/
theorem c7_metrics_by_status (coll : List Order) (f : OrderFilters) :
    (∀ s : OrderStatus,
        (((repoGetMetrics coll f).ordersByStatus.lookup s).isSome = true ↔
          s ∈ (coll.filter (matchesFilters f)).map (fun o => o.status)))
    ∧ ((coll.filter (matchesFilters f)) = [] →
        repoGetMetrics coll f =
          { totalSales := 0, avgTicket := 0, ordersByStatus := [],
            topProducts := [] }) := by
  constructor
  · intro s
    have hb : (repoGetMetrics coll f).ordersByStatus =
        byStatusFacet (coll.filter (matchesFilters f)) := rfl
    rw [hb]
    unfold byStatusFacet
    exact Iff.trans
      (lookup_map_keys ((coll.filter (matchesFilters f)).map (fun o => o.status)).dedup
        (fun k => ((coll.filter (matchesFilters f)).filter (fun o => o.status = k)).length)
        s)
      List.mem_dedup
  · intro h
    simp only [repoGetMetrics, h]
    simp [byStatusFacet, topProductsFacet]

/-- Counterexample to C7 as stated: over a single CREATED order with no
filters, the by-status map has no entry for five of the six statuses —
they are absent, not explicit zeroes. -/
theorem c7_counterexample :
    ¬ (∀ s, s ∈ [StatusCreated, StatusVerified, StatusInProgress,
          StatusOutForDelivery, StatusDelivered, StatusCancelled] →
        ((repoGetMetrics [sampleOnSite] {}).ordersByStatus.lookup s).isSome = true) := by
  decide

/-- Witness for the amended C7: a filter matching nothing yields the
zeroed metrics record. -/
theorem c7_metrics_by_status_witness :
    repoGetMetrics [sampleOnSite] { status := some StatusVerified } =
      { totalSales := 0, avgTicket := 0, ordersByStatus := [], topProducts := [] } :=
  (c7_metrics_by_status [sampleOnSite] { status := some StatusVerified }).2 (by decide)
